import Mathlib

/-
Verification of the Vaunix Lab Brick driver header layer
(LabBrick_LMS_Synthesizer/DLL/vnx_fmsynth.h,
 LabBrick_LSG_SignalGenerator/DLL/vnx_fsynsth.h,
 Vaunix_Attenuator/VNX_atten.h).

The headers define the per-family bit masks, status codes and the API
surface; the session / sequencer behaviors they declare are modelled
from the specification where noted.
-/

/-- The three Lab Brick device families covered by the headers. -/
inductive Family
  | Synthesizer
  | Generator
  | Attenuator
deriving DecidableEq, Repr

/- Constants of vnx_fmsynth.h (LMS microwave frequency synthesizer). -/
namespace LMS

def MAXDEVICES : Nat := 64

def MAX_MODELNAME : Nat := 32

def MODE_RFON : Nat := 0x00000010

def MODE_INTREF : Nat := 0x00000020

def MODE_SWEEP : Nat := 0x0000000F

def MODE_PWMON : Nat := 0x00000100

def MODE_EXTPWM : Nat := 0x00000200

def PWM_MASK : Nat := 0x00000300

def STATUS_OK : Nat := 0

def BAD_PARAMETER : Nat := 0x80010000

def BAD_HID_Io : Nat := 0x80020000

def DEVICE_NOT_READY : Nat := 0x80030000

def INVALID_DEVID : Nat := 0x80000000

def DEV_CONNECTED : Nat := 0x00000001

def DEV_OPENED : Nat := 0x00000002

def SWP_ACTIVE : Nat := 0x00000004

def SWP_UP : Nat := 0x00000008

def SWP_REPEAT : Nat := 0x00000010

def SWP_BIDIRECTIONAL : Nat := 0x00000020

def PLL_LOCKED : Nat := 0x00000040

def FAST_PULSE_OPTION : Nat := 0x00000080

def DEV_LOCKED : Nat := 0x00002000

def DEV_RDTHREAD : Nat := 0x00004000

end LMS

/- Constants of vnx_fsynsth.h (LSG signal generator). -/
namespace LSG

def MAXDEVICES : Nat := 64

def MAX_MODELNAME : Nat := 32

def MODE_RFON : Nat := 0x00000010

def MODE_INTREF : Nat := 0x00000020

def MODE_SWEEP : Nat := 0x0000000F

def STATUS_OK : Nat := 0

def BAD_PARAMETER : Nat := 0x80010000

def BAD_HID_Io : Nat := 0x80020000

def DEVICE_NOT_READY : Nat := 0x80030000

def INVALID_DEVID : Nat := 0x80000000

def DEV_CONNECTED : Nat := 0x00000001

def DEV_OPENED : Nat := 0x00000002

def SWP_ACTIVE : Nat := 0x00000004

def SWP_UP : Nat := 0x00000008

def SWP_REPEAT : Nat := 0x00000010

def DEV_LOCKED : Nat := 0x00000020

def DEV_RDTHREAD : Nat := 0x00000040

end LSG

/- Constants of VNX_atten.h (LDA step attenuator). -/
namespace LDA

def MAXDEVICES : Nat := 64

def MAX_MODELNAME : Nat := 32

def PROFILE_MAX : Nat := 100

def MODE_RFON : Nat := 0x00000040

def MODE_INTREF : Nat := 0x00000020

def MODE_SWEEP : Nat := 0x0000001F

def STATUS_OK : Nat := 0

def BAD_PARAMETER : Nat := 0x80010000

def BAD_HID_Io : Nat := 0x80020000

def DEVICE_NOT_READY : Nat := 0x80030000

def FEATURE_NOT_SUPPORTED : Nat := 0x80040000

def INVALID_DEVID : Nat := 0x80000000

def DEV_CONNECTED : Nat := 0x00000001

def DEV_OPENED : Nat := 0x00000002

def SWP_ACTIVE : Nat := 0x00000004

def SWP_UP : Nat := 0x00000008

def SWP_REPEAT : Nat := 0x00000010

def SWP_BIDIRECTIONAL : Nat := 0x00000020

def PROFILE_ACTIVE : Nat := 0x00000040

end LDA

/-- Extraction of one flag from a bit-packed word by a header mask:
the flag is set when the masked bits are nonzero (`word & MASK != 0`,
the way every mask in the headers is meant to be consumed). -/
def statusFlag (word mask : Nat) : Bool := word &&& mask != 0

theorem statusFlag_two_pow (w k : Nat) : statusFlag w (2 ^ k) = w.testBit k := by
  unfold statusFlag
  rw [Nat.and_two_pow]
  cases h : w.testBit k
  · simp
  · simp [(Nat.two_pow_pos k).ne]

theorem statusFlag_testBit (w m k : Nat) (h : m = 2 ^ k) :
    statusFlag w m = w.testBit k := by
  rw [h]; exact statusFlag_two_pow w k

/-- The decoded view of a raw 32-bit device status word.  Fields that are
meaningless for a family, or whose value cannot be trusted because the
device is not connected, carry the unknown representation `none`. -/
structure DeviceStatus where
  device_connected : Bool
  device_opened : Option Bool
  sweep_or_ramp_active : Option Bool
  sweep_or_ramp_direction_up : Option Bool
  repeat_enabled : Option Bool
  bidirectional_enabled : Option Bool
  pll_locked : Option Bool
  fast_pulse_available : Option Bool
  profile_active : Option Bool
  dev_locked : Option Bool
  dev_rdthread : Option Bool
deriving DecidableEq, Repr

/-- Modelled from the spec: the status decoder
`decode(raw_status_word, family) -> DeviceStatus` itself is not in the
headers (they only declare `fnLMS_GetDeviceStatus` / `fnLSG_GetDeviceStatus`
and the `DevStatus` bit masks); per the Status Decoder section it is a pure,
table-driven function, and `device_connected = false` forces every dependent
flag to the unknown representation.  Every bit mask below is the header
constant of the corresponding family. -/
def decode (w : Nat) (f : Family) : DeviceStatus :=
  match f with
  | Family.Synthesizer =>
    let conn := statusFlag w LMS.DEV_CONNECTED
    { device_connected := conn
      device_opened := if conn then some (statusFlag w LMS.DEV_OPENED) else none
      sweep_or_ramp_active := if conn then some (statusFlag w LMS.SWP_ACTIVE) else none
      sweep_or_ramp_direction_up := if conn then some (statusFlag w LMS.SWP_UP) else none
      repeat_enabled := if conn then some (statusFlag w LMS.SWP_REPEAT) else none
      bidirectional_enabled := if conn then some (statusFlag w LMS.SWP_BIDIRECTIONAL) else none
      pll_locked := if conn then some (statusFlag w LMS.PLL_LOCKED) else none
      fast_pulse_available := if conn then some (statusFlag w LMS.FAST_PULSE_OPTION) else none
      profile_active := none
      dev_locked := if conn then some (statusFlag w LMS.DEV_LOCKED) else none
      dev_rdthread := if conn then some (statusFlag w LMS.DEV_RDTHREAD) else none }
  | Family.Generator =>
    let conn := statusFlag w LSG.DEV_CONNECTED
    { device_connected := conn
      device_opened := if conn then some (statusFlag w LSG.DEV_OPENED) else none
      sweep_or_ramp_active := if conn then some (statusFlag w LSG.SWP_ACTIVE) else none
      sweep_or_ramp_direction_up := if conn then some (statusFlag w LSG.SWP_UP) else none
      repeat_enabled := if conn then some (statusFlag w LSG.SWP_REPEAT) else none
      bidirectional_enabled := none
      pll_locked := none
      fast_pulse_available := none
      profile_active := none
      dev_locked := if conn then some (statusFlag w LSG.DEV_LOCKED) else none
      dev_rdthread := if conn then some (statusFlag w LSG.DEV_RDTHREAD) else none }
  | Family.Attenuator =>
    let conn := statusFlag w LDA.DEV_CONNECTED
    { device_connected := conn
      device_opened := if conn then some (statusFlag w LDA.DEV_OPENED) else none
      sweep_or_ramp_active := if conn then some (statusFlag w LDA.SWP_ACTIVE) else none
      sweep_or_ramp_direction_up := if conn then some (statusFlag w LDA.SWP_UP) else none
      repeat_enabled := if conn then some (statusFlag w LDA.SWP_REPEAT) else none
      bidirectional_enabled := if conn then some (statusFlag w LDA.SWP_BIDIRECTIONAL) else none
      pll_locked := none
      fast_pulse_available := none
      profile_active := if conn then some (statusFlag w LDA.PROFILE_ACTIVE) else none
      dev_locked := none
      dev_rdthread := none }

/-- A device session as cached host-side state for one parameter.
`minVal` / `maxVal` are the bounds read once at open time, `cached` the
last value read or set. -/
structure Session where
  opened : Bool
  minVal : Int
  maxVal : Int
  cached : Int
deriving DecidableEq, Repr

/-- Modelled from the spec: the implementation of the `set_*` family
(`fnLMS_SetFrequency`, `fnLDA_SetAttenuation`, ...) is not in the headers,
which only declare the functions and the status codes.  Per the Device
Session contract, the value is validated against the cached min/max before
any device I/O; out of bounds fails `BAD_PARAMETER` locally without touching
the transport; on success one transport exchange is issued and the cache is
updated.  Result: (status code, session after the call, transport exchanges
issued by the call). -/
def setParam (s : Session) (v : Int) : Nat × Session × List Int :=
  if s.opened = false then (LDA.DEVICE_NOT_READY, s, [])
  else if v < s.minVal ∨ s.maxVal < v then (LDA.BAD_PARAMETER, s, [])
  else (LDA.STATUS_OK, { s with cached := v }, [v])

/-- The registry's view of one attached device (per-DeviceId record). -/
structure DeviceRecord where
  connected : Bool
  opened : Bool
deriving DecidableEq, Repr

/-- Modelled from the spec: the implementation of `fnLMS_InitDevice` /
`fnLDA_InitDevice` (open) is not in the headers.  Per the Device Session
contract, open fails `DEVICE_NOT_READY` if the device is not connected or
is already opened, and otherwise succeeds setting `opened = true`. -/
def initDevice (d : DeviceRecord) : Nat × DeviceRecord :=
  if d.connected && !d.opened then
    (LDA.STATUS_OK, { d with opened := true })
  else
    (LDA.DEVICE_NOT_READY, d)

/-- Modelled from the spec: the implementation of `fnLMS_CloseDevice` /
`fnLDA_CloseDevice` is not in the headers.  Per the Device Session contract,
close releases the handle, is idempotent, always succeeds and clears
`opened` on the backing record. -/
def closeDevice (d : DeviceRecord) : Nat × DeviceRecord :=
  (LDA.STATUS_OK, { d with opened := false })

/-- The attenuator profile list state: up to `PROFILE_MAX` (100) stored
setpoints (a fixed-size backing store of 100 slots) and the active count. -/
structure ProfileState where
  profile : List Int
  profileCount : Nat
deriving DecidableEq, Repr

/-- Modelled from the spec: the implementation of `fnLDA_SetProfileElement`
is not in the headers.  Per the Profile sequencer contract, an index beyond
99 fails `BAD_PARAMETER` leaving the profile unchanged, and a valid index is
written with append-or-overwrite semantics (the count grows to cover the
written index). -/
def setProfileElement (p : ProfileState) (index : Nat) (v : Int) :
    Nat × ProfileState :=
  if LDA.PROFILE_MAX ≤ index then (LDA.BAD_PARAMETER, p)
  else
    (LDA.STATUS_OK,
      { p with
        profile := p.profile.set index v
        profileCount := max p.profileCount (index + 1) })

/-- Modelled from the spec: the implementation of `fnLDA_SetProfileCount`
is not in the headers.  Per the spec, `profile_count` clamps to at most
`PROFILE_MAX` (100). -/
def setProfileCount (p : ProfileState) (c : Nat) : Nat × ProfileState :=
  (LDA.STATUS_OK, { p with profileCount := min c LDA.PROFILE_MAX })

/-- Modelled from the spec: the implementation of `fnLDA_GetProfileElement`
is not in the headers.  Reads the stored setpoint at the index. -/
def getProfileElement (p : ProfileState) (index : Nat) : Int :=
  p.profile.getD index 0

/-- States of the sweep / ramp / profile sequencer state machine. -/
inductive SeqState
  | Idle
  | Armed
  | Running
deriving DecidableEq, Repr

/-- Host-side results of a sequencer operation (tagged, per the spec's
error taxonomy). -/
inductive SeqResult
  | ok
  | invalidState
  | badParameter
deriving DecidableEq, Repr

/-- One sequencer (sweep for synthesizers/generators, ramp or profile for
attenuators) attached to a session: its family, current state, and whether
a previous configuration exists. -/
structure Sequencer where
  family : Family
  state : SeqState
  configured : Bool
deriving DecidableEq, Repr

/-- Modelled from the spec: the implementation of `configure` (the
`fnXXX_SetStartFrequency` / `fnLDA_SetRampStart` ... group) is not in the
headers.  Valid only from Idle (reconfiguring while Running fails
`InvalidState`); validates start < end and positive step/dwell; on success
transitions to Armed. -/
def configure (q : Sequencer) (a b step dwell : Int) : SeqResult × Sequencer :=
  if q.state = SeqState.Running then (SeqResult.invalidState, q)
  else if a < b ∧ 0 < step ∧ 0 < dwell then
    (SeqResult.ok, { q with state := SeqState.Armed, configured := true })
  else (SeqResult.badParameter, q)

/-- Modelled from the spec: the implementation of `fnLMS_StartSweep` /
`fnLDA_StartRamp` / `fnLDA_StartProfile` (with go = true or a profile mode)
is not in the headers.  Start is valid from Armed, or from Idle when a
previous configuration exists, and transitions to Running. -/
def start (q : Sequencer) : SeqResult × Sequencer :=
  if q.state = SeqState.Armed ∨ (q.state = SeqState.Idle ∧ q.configured) then
    (SeqResult.ok, { q with state := SeqState.Running })
  else (SeqResult.invalidState, q)

/-- Modelled from the spec: the stop side of `fnLMS_StartSweep` /
`fnLDA_StartRamp` (go = false) and of profile playback is not in the
headers.  Per the Sequencer contract, stop issues the device stop command
and always succeeds from the host's perspective, leaving the sequencer
Idle, even if it was already idle. -/
def stop (q : Sequencer) : SeqResult × Sequencer :=
  (SeqResult.ok, { q with state := SeqState.Idle })

/-- Read-modify-write of the pulse-modulation control bits of a synthesizer
mode word: clear the `PWM_MASK` field, then install the new bits.  The
masks are the header constants. -/
def updatePwmBits (m v : Nat) : Nat :=
  (m ^^^ (m &&& LMS.PWM_MASK)) ||| (v &&& LMS.PWM_MASK)

/-- Read-modify-write of the sweep-control nibble of a synthesizer mode
word: clear the `MODE_SWEEP` field, then install the new bits. -/
def updateSweepBits (m v : Nat) : Nat :=
  (m ^^^ (m &&& LMS.MODE_SWEEP)) ||| (v &&& LMS.MODE_SWEEP)

/-- The RF-on flag of a mode word, read with the owning family's
`MODE_RFON` mask. -/
def modeRfOn (f : Family) (w : Nat) : Bool :=
  match f with
  | Family.Synthesizer => statusFlag w LMS.MODE_RFON
  | Family.Generator => statusFlag w LSG.MODE_RFON
  | Family.Attenuator => statusFlag w LDA.MODE_RFON

/-- The status-code values shared by the headers (the attenuator header
adds `FEATURE_NOT_SUPPORTED`). -/
def statusCodes : List Nat :=
  [LDA.STATUS_OK, LDA.BAD_PARAMETER, LDA.BAD_HID_Io,
   LDA.DEVICE_NOT_READY, LDA.FEATURE_NOT_SUPPORTED]

/-- Reinterpretation of a 32-bit status value as a signed two-complement
integer. -/
def toInt32 (c : Nat) : Int :=
  if c < 2 ^ 31 then (c : Int) else (c : Int) - 2 ^ 32

/-- Claim C1: for every raw status word and every family, the status decoder
extracts each flag from exactly the bit position of the layout table:
invalid-device-id at bit 31, connected at bit 0, opened at bit 1,
sweep/ramp-active at bit 2, direction-up at bit 3, repeat at bit 4 in all
three families; bidirectional at bit 5 for synthesizer and attenuator;
PLL-locked at bit 6 and fast-pulse-option at bit 7 for the synthesizer;
profile-active at bit 6 for the attenuator; internal locked / read-thread
flags at bits 13/14 for the synthesizer and 5/6 for the generator. -/
theorem claim_C1_status_bit_layout (w : Nat) :
    statusFlag w LMS.INVALID_DEVID = w.testBit 31 ∧
    statusFlag w LMS.DEV_CONNECTED = w.testBit 0 ∧
    statusFlag w LMS.DEV_OPENED = w.testBit 1 ∧
    statusFlag w LMS.SWP_ACTIVE = w.testBit 2 ∧
    statusFlag w LMS.SWP_UP = w.testBit 3 ∧
    statusFlag w LMS.SWP_REPEAT = w.testBit 4 ∧
    statusFlag w LMS.SWP_BIDIRECTIONAL = w.testBit 5 ∧
    statusFlag w LMS.PLL_LOCKED = w.testBit 6 ∧
    statusFlag w LMS.FAST_PULSE_OPTION = w.testBit 7 ∧
    statusFlag w LMS.DEV_LOCKED = w.testBit 13 ∧
    statusFlag w LMS.DEV_RDTHREAD = w.testBit 14 ∧
    statusFlag w LSG.INVALID_DEVID = w.testBit 31 ∧
    statusFlag w LSG.DEV_CONNECTED = w.testBit 0 ∧
    statusFlag w LSG.DEV_OPENED = w.testBit 1 ∧
    statusFlag w LSG.SWP_ACTIVE = w.testBit 2 ∧
    statusFlag w LSG.SWP_UP = w.testBit 3 ∧
    statusFlag w LSG.SWP_REPEAT = w.testBit 4 ∧
    statusFlag w LSG.DEV_LOCKED = w.testBit 5 ∧
    statusFlag w LSG.DEV_RDTHREAD = w.testBit 6 ∧
    statusFlag w LDA.INVALID_DEVID = w.testBit 31 ∧
    statusFlag w LDA.DEV_CONNECTED = w.testBit 0 ∧
    statusFlag w LDA.DEV_OPENED = w.testBit 1 ∧
    statusFlag w LDA.SWP_ACTIVE = w.testBit 2 ∧
    statusFlag w LDA.SWP_UP = w.testBit 3 ∧
    statusFlag w LDA.SWP_REPEAT = w.testBit 4 ∧
    statusFlag w LDA.SWP_BIDIRECTIONAL = w.testBit 5 ∧
    statusFlag w LDA.PROFILE_ACTIVE = w.testBit 6 :=
  ⟨statusFlag_testBit w LMS.INVALID_DEVID 31 (by decide),
    statusFlag_testBit w LMS.DEV_CONNECTED 0 (by decide),
    statusFlag_testBit w LMS.DEV_OPENED 1 (by decide),
    statusFlag_testBit w LMS.SWP_ACTIVE 2 (by decide),
    statusFlag_testBit w LMS.SWP_UP 3 (by decide),
    statusFlag_testBit w LMS.SWP_REPEAT 4 (by decide),
    statusFlag_testBit w LMS.SWP_BIDIRECTIONAL 5 (by decide),
    statusFlag_testBit w LMS.PLL_LOCKED 6 (by decide),
    statusFlag_testBit w LMS.FAST_PULSE_OPTION 7 (by decide),
    statusFlag_testBit w LMS.DEV_LOCKED 13 (by decide),
    statusFlag_testBit w LMS.DEV_RDTHREAD 14 (by decide),
    statusFlag_testBit w LSG.INVALID_DEVID 31 (by decide),
    statusFlag_testBit w LSG.DEV_CONNECTED 0 (by decide),
    statusFlag_testBit w LSG.DEV_OPENED 1 (by decide),
    statusFlag_testBit w LSG.SWP_ACTIVE 2 (by decide),
    statusFlag_testBit w LSG.SWP_UP 3 (by decide),
    statusFlag_testBit w LSG.SWP_REPEAT 4 (by decide),
    statusFlag_testBit w LSG.DEV_LOCKED 5 (by decide),
    statusFlag_testBit w LSG.DEV_RDTHREAD 6 (by decide),
    statusFlag_testBit w LDA.INVALID_DEVID 31 (by decide),
    statusFlag_testBit w LDA.DEV_CONNECTED 0 (by decide),
    statusFlag_testBit w LDA.DEV_OPENED 1 (by decide),
    statusFlag_testBit w LDA.SWP_ACTIVE 2 (by decide),
    statusFlag_testBit w LDA.SWP_UP 3 (by decide),
    statusFlag_testBit w LDA.SWP_REPEAT 4 (by decide),
    statusFlag_testBit w LDA.SWP_BIDIRECTIONAL 5 (by decide),
    statusFlag_testBit w LDA.PROFILE_ACTIVE 6 (by decide)⟩

/-- Claim C2: decoding is family-dependent at the colliding bit positions:
bit 5 is bidirectional for the synthesizer and the attenuator but the
internal transport-busy (locked) flag for the generator, and bit 6 is
PLL-locked for the synthesizer, the internal read-thread flag for the
generator and profile-active for the attenuator; on a raw word with bit 5
or bit 6 set the three families decode to different flag assignments. -/
theorem claim_C2_family_dependent_decode :
    (decode 0x21 Family.Synthesizer).bidirectional_enabled = some true ∧
    (decode 0x21 Family.Attenuator).bidirectional_enabled = some true ∧
    (decode 0x21 Family.Generator).dev_locked = some true ∧
    (decode 0x21 Family.Generator).bidirectional_enabled = none ∧
    (decode 0x41 Family.Synthesizer).pll_locked = some true ∧
    (decode 0x41 Family.Generator).dev_rdthread = some true ∧
    (decode 0x41 Family.Attenuator).profile_active = some true ∧
    decode 0x61 Family.Synthesizer ≠ decode 0x61 Family.Generator ∧
    decode 0x61 Family.Generator ≠ decode 0x61 Family.Attenuator ∧
    decode 0x61 Family.Synthesizer ≠ decode 0x61 Family.Attenuator := by
  decide

theorem mask_update_keeps (m v a b : Nat) (hab : a &&& b = 0) :
    ((m ^^^ (m &&& a)) ||| (v &&& a)) &&& b = m &&& b := by
  apply Nat.eq_of_testBit_eq
  intro i
  have h : a.testBit i = true → b.testBit i = false := by
    intro ha
    have hz := congrArg (fun x => Nat.testBit x i) hab
    simpa [Nat.testBit_and, ha] using hz
  simp only [Nat.testBit_and, Nat.testBit_or, Nat.testBit_xor]
  cases ha : a.testBit i
  · simp
  · simp [h ha]

theorem mask_update_sets (m v a : Nat) :
    ((m ^^^ (m &&& a)) ||| (v &&& a)) &&& a = v &&& a := by
  apply Nat.eq_of_testBit_eq
  intro i
  simp only [Nat.testBit_and, Nat.testBit_or, Nat.testBit_xor]
  cases ha : a.testBit i <;> cases hm : m.testBit i <;> cases hv : v.testBit i <;> simp

/-- Claim C8: in the synthesizer mode word the sweep-control nibble
(`MODE_SWEEP`, bits 0-3) and the pulse-modulation control bits
(`PWM_MASK`, bits 8-9) occupy disjoint ranges: updating either field by
read-modify-write leaves the other unchanged (and installs the new bits in
its own field). -/
theorem claim_C8_pwm_sweep_disjoint (m v : Nat) :
    LMS.MODE_SWEEP &&& LMS.PWM_MASK = 0 ∧
    updatePwmBits m v &&& LMS.MODE_SWEEP = m &&& LMS.MODE_SWEEP ∧
    updateSweepBits m v &&& LMS.PWM_MASK = m &&& LMS.PWM_MASK ∧
    updatePwmBits m v &&& LMS.PWM_MASK = v &&& LMS.PWM_MASK ∧
    updateSweepBits m v &&& LMS.MODE_SWEEP = v &&& LMS.MODE_SWEEP :=
  ⟨by decide,
   mask_update_keeps m v LMS.PWM_MASK LMS.MODE_SWEEP (by decide),
   mask_update_keeps m v LMS.MODE_SWEEP LMS.PWM_MASK (by decide),
   mask_update_sets m v LMS.PWM_MASK,
   mask_update_sets m v LMS.MODE_SWEEP⟩

/-- Claim C9: success is exactly 0 and every error status code is a
distinct 32-bit value with bit 31 set, with identical values across the
three family headers; so a result is an error exactly when its most
significant bit is set, i.e. when it is negative as a signed 32-bit
integer. -/
theorem claim_C9_status_codes :
    LMS.STATUS_OK = 0 ∧ LSG.STATUS_OK = 0 ∧ LDA.STATUS_OK = 0 ∧
    LMS.BAD_PARAMETER = LSG.BAD_PARAMETER ∧
    LSG.BAD_PARAMETER = LDA.BAD_PARAMETER ∧
    LMS.BAD_HID_Io = LSG.BAD_HID_Io ∧ LSG.BAD_HID_Io = LDA.BAD_HID_Io ∧
    LMS.DEVICE_NOT_READY = LSG.DEVICE_NOT_READY ∧
    LSG.DEVICE_NOT_READY = LDA.DEVICE_NOT_READY ∧
    LDA.BAD_PARAMETER ≠ LDA.BAD_HID_Io ∧
    LDA.BAD_PARAMETER ≠ LDA.DEVICE_NOT_READY ∧
    LDA.BAD_PARAMETER ≠ LDA.FEATURE_NOT_SUPPORTED ∧
    LDA.BAD_HID_Io ≠ LDA.DEVICE_NOT_READY ∧
    LDA.BAD_HID_Io ≠ LDA.FEATURE_NOT_SUPPORTED ∧
    LDA.DEVICE_NOT_READY ≠ LDA.FEATURE_NOT_SUPPORTED ∧
    (∀ c ∈ statusCodes, c < 2 ^ 32) ∧
    (∀ c ∈ statusCodes, c ≠ LDA.STATUS_OK ↔ c.testBit 31 = true) ∧
    (∀ c ∈ statusCodes, c ≠ LDA.STATUS_OK ↔ toInt32 c < 0) := by
  decide

/-- Claim C10: the mode-word layout is not family-agnostic: RF-on is bit 6
(mask 0x40) and the ramp-control field five bits (mask 0x1F) for the
attenuator, while RF-on is bit 4 (mask 0x10) and the sweep-control field
four bits (mask 0x0F) for the synthesizer and the generator; reading a mode
word with the wrong family's mask yields a different RF-on value. -/
theorem claim_C10_mode_rfon_family_masks :
    LMS.MODE_RFON = 2 ^ 4 ∧ LSG.MODE_RFON = 2 ^ 4 ∧ LDA.MODE_RFON = 2 ^ 6 ∧
    LMS.MODE_SWEEP = 2 ^ 4 - 1 ∧ LSG.MODE_SWEEP = 2 ^ 4 - 1 ∧
    LDA.MODE_SWEEP = 2 ^ 5 - 1 ∧
    modeRfOn Family.Synthesizer 0x10 = true ∧
    modeRfOn Family.Generator 0x10 = true ∧
    modeRfOn Family.Attenuator 0x10 = false ∧
    modeRfOn Family.Attenuator 0x40 = true ∧
    modeRfOn Family.Synthesizer 0x40 = false ∧
    modeRfOn Family.Generator 0x40 = false := by
  decide

/-- Claim C6: for every sequencer (sweep, ramp or profile) and every prior
state, stop succeeds and leaves the sequencer Idle; stop is idempotent:
invoked on an already idle sequencer it also succeeds and keeps Idle. -/
theorem claim_C6_stop_idempotent (q : Sequencer) :
    (stop q).1 = SeqResult.ok ∧
    ((stop q).2).state = SeqState.Idle ∧
    stop ((stop q).2) = (SeqResult.ok, (stop q).2) := by
  refine ⟨rfl, rfl, ?_⟩
  simp [stop]

/-- Claim C3: for every open session and every value strictly outside the
cached [min, max] bounds, `set_*` returns `BAD_PARAMETER`, performs no
transport I/O (the list of exchanges issued is empty) and leaves the
session — in particular its cached value — unchanged; the value is never
silently clamped into range. -/
theorem claim_C3_set_out_of_bounds_rejected (s : Session) (v : Int)
    (hopen : s.opened = true) (hout : v < s.minVal ∨ s.maxVal < v) :
    setParam s v = (LDA.BAD_PARAMETER, s, []) := by
  simp [setParam, hopen, hout]

/-- Concrete instance of claim C3: bounds [0, 10], cached 5, setting 11. -/
theorem claim_C3_witness :
    (Session.mk true 0 10 5).opened = true ∧
    ((11 : Int) < (Session.mk true 0 10 5).minVal ∨
      (Session.mk true 0 10 5).maxVal < 11) ∧
    setParam (Session.mk true 0 10 5) 11 =
      (LDA.BAD_PARAMETER, Session.mk true 0 10 5, []) :=
  ⟨rfl, Or.inr (by decide),
   claim_C3_set_out_of_bounds_rejected (Session.mk true 0 10 5) 11 rfl
     (Or.inr (by decide))⟩

/-- Claim C4: at most one session holds the open handle of a device: after
a successful open, a second open fails `DEVICE_NOT_READY` without changing
the record (no queuing, no preempting — the first open stays in force), and
after a close a subsequent open of the same device succeeds. -/
theorem claim_C4_exclusive_open (d : DeviceRecord)
    (h : (initDevice d).1 = LDA.STATUS_OK) :
    initDevice ((initDevice d).2) = (LDA.DEVICE_NOT_READY, (initDevice d).2) ∧
    ((initDevice d).2).opened = true ∧
    (initDevice ((closeDevice ((initDevice d).2)).2)).1 = LDA.STATUS_OK := by
  cases hc : d.connected <;> cases ho : d.opened <;>
    simp_all [initDevice, closeDevice, LDA.STATUS_OK, LDA.DEVICE_NOT_READY]

/-- Concrete instance of claim C4: a connected, unopened device. -/
theorem claim_C4_witness :
    (initDevice (DeviceRecord.mk true false)).1 = LDA.STATUS_OK ∧
    (initDevice ((initDevice (DeviceRecord.mk true false)).2) =
        (LDA.DEVICE_NOT_READY, (initDevice (DeviceRecord.mk true false)).2) ∧
      ((initDevice (DeviceRecord.mk true false)).2).opened = true ∧
      (initDevice
          ((closeDevice ((initDevice (DeviceRecord.mk true false)).2)).2)).1 =
        LDA.STATUS_OK) :=
  ⟨by decide, claim_C4_exclusive_open (DeviceRecord.mk true false) (by decide)⟩

/-- Claim C5: profile list operations: writing index i < profile_count and
reading profile[i] returns the written value; profile_count never exceeds
100 (`PROFILE_MAX`), neither through an element write nor through a count
write, which clamps; and a write at any index greater than 99 fails
`BAD_PARAMETER` leaving the profile state unchanged. -/
theorem claim_C5_profile_ops (p : ProfileState) (i : Nat) (v : Int)
    (hlen : p.profile.length = LDA.PROFILE_MAX)
    (hi : i < p.profileCount) (hc : p.profileCount ≤ LDA.PROFILE_MAX) :
    getProfileElement ((setProfileElement p i v).2) i = v ∧
    ((setProfileElement p i v).2).profileCount ≤ LDA.PROFILE_MAX ∧
    (∀ c, ((setProfileCount p c).2).profileCount ≤ LDA.PROFILE_MAX) ∧
    (∀ j, 99 < j → setProfileElement p j v = (LDA.BAD_PARAMETER, p)) := by
  simp only [LDA.PROFILE_MAX] at hlen hc
  have hilt : i < 100 := Nat.lt_of_lt_of_le hi hc
  have hbranch : ¬ (LDA.PROFILE_MAX ≤ i) := by simp [LDA.PROFILE_MAX]; omega
  refine ⟨?_, ?_, ?_, ?_⟩
  · simp only [setProfileElement, hbranch, if_false, getProfileElement]
    have hl : i < (p.profile.set i v).length := by simp [hlen]; omega
    rw [List.getD_eq_getElem _ _ hl]
    simp
  · simp only [setProfileElement, hbranch, if_false]
    simp only [LDA.PROFILE_MAX]
    omega
  · intro c
    simp [setProfileCount, LDA.PROFILE_MAX]
  · intro j hj
    have hbr : LDA.PROFILE_MAX ≤ j := by simp [LDA.PROFILE_MAX]; omega
    simp [setProfileElement, hbr]

/-- Concrete instance of claim C5: a full-size backing store, count 3,
writing 7 at index 1. -/
theorem claim_C5_witness :
    (ProfileState.mk (List.replicate 100 0) 3).profile.length =
      LDA.PROFILE_MAX ∧
    1 < (ProfileState.mk (List.replicate 100 0) 3).profileCount ∧
    (ProfileState.mk (List.replicate 100 0) 3).profileCount ≤
      LDA.PROFILE_MAX ∧
    (getProfileElement
        ((setProfileElement (ProfileState.mk (List.replicate 100 0) 3) 1 7).2)
        1 = 7 ∧
      ((setProfileElement (ProfileState.mk (List.replicate 100 0) 3) 1
            7).2).profileCount ≤ LDA.PROFILE_MAX ∧
      (∀ c,
        ((setProfileCount (ProfileState.mk (List.replicate 100 0) 3)
              c).2).profileCount ≤ LDA.PROFILE_MAX) ∧
      (∀ j, 99 < j →
        setProfileElement (ProfileState.mk (List.replicate 100 0) 3) j 7 =
          (LDA.BAD_PARAMETER, ProfileState.mk (List.replicate 100 0) 3))) :=
  ⟨by simp [LDA.PROFILE_MAX], by decide, by decide,
   claim_C5_profile_ops (ProfileState.mk (List.replicate 100 0) 3) 1 7
     (by simp [LDA.PROFILE_MAX]) (by decide) (by decide)⟩

/-- Claim C7: decode is a pure, deterministic function — equal raw words
and equal families give equal results — and a decoded
`device_connected = false` forces every other flag to the unknown
representation `none`, never a true or false derived from the remaining
bits. -/
theorem claim_C7_decode_pure_unknown (w w2 : Nat) (f f2 : Family)
    (hw : w = w2) (hf : f = f2)
    (hconn : (decode w f).device_connected = false) :
    decode w f = decode w2 f2 ∧
    (decode w f).device_opened = none ∧
    (decode w f).sweep_or_ramp_active = none ∧
    (decode w f).sweep_or_ramp_direction_up = none ∧
    (decode w f).repeat_enabled = none ∧
    (decode w f).bidirectional_enabled = none ∧
    (decode w f).pll_locked = none ∧
    (decode w f).fast_pulse_available = none ∧
    (decode w f).profile_active = none ∧
    (decode w f).dev_locked = none ∧
    (decode w f).dev_rdthread = none := by
  subst hw
  subst hf
  refine ⟨rfl, ?_, ?_, ?_, ?_, ?_, ?_, ?_, ?_, ?_, ?_⟩ <;>
    cases f <;> simp_all [decode]

/-- Concrete instance of claim C7: the word 2 (opened bit set, connected
bit clear) decodes with every dependent flag unknown. -/
theorem claim_C7_witness :
    (decode 2 Family.Synthesizer).device_connected = false ∧
    (decode 2 Family.Synthesizer = decode 2 Family.Synthesizer ∧
      (decode 2 Family.Synthesizer).device_opened = none ∧
      (decode 2 Family.Synthesizer).sweep_or_ramp_active = none ∧
      (decode 2 Family.Synthesizer).sweep_or_ramp_direction_up = none ∧
      (decode 2 Family.Synthesizer).repeat_enabled = none ∧
      (decode 2 Family.Synthesizer).bidirectional_enabled = none ∧
      (decode 2 Family.Synthesizer).pll_locked = none ∧
      (decode 2 Family.Synthesizer).fast_pulse_available = none ∧
      (decode 2 Family.Synthesizer).profile_active = none ∧
      (decode 2 Family.Synthesizer).dev_locked = none ∧
      (decode 2 Family.Synthesizer).dev_rdthread = none) :=
  ⟨by decide,
   claim_C7_decode_pure_unknown 2 2 Family.Synthesizer Family.Synthesizer rfl
     rfl (by decide)⟩
